import Mathlib

/-!
Shallow embedding of the HD44780-style LCD driver found in this repository.
The primary embedding follows `src/unnamed/part_000` (the plain-promise file);
definitions prefixed with `ts` follow `src/lcd-ts.ts` (the notification-adapter
file) where the two files differ.  Pin writes, microsecond busy-waits and
millisecond delays are recorded as events in a list; JavaScript 32-bit bitwise
arithmetic is modelled on `Nat` with explicit masks where it matters.
-/

/-- One observable action of the driver: a register-select write, an enable
write, a data-pin write, a microsecond busy-wait, a millisecond delay, a
caller notification (event name or callback), a promise resolution or
rejection, or the release of the serializer lock. -/
inductive Ev where
  | rs (v : Nat)
  | en (v : Nat)
  | dataPin (i : Nat) (v : Nat)
  | sleepUs (n : Nat)
  | delayMs (n : Nat)
  | note (s : String)
  | resolveP
  | rejectP
  | release
deriving DecidableEq

/-- The value written to data pin `i` when transmitting `val`:
`(val >> i) & 1` (src/unnamed/part_000 line 286). -/
def dataBit (val i : Nat) : Nat := (val >>> i) &&& 1

/-- Event trace of `write4Bits(val)` on a numeric argument
(src/unnamed/part_000 lines 277-289): enable high, the four data pins written
to bits 0..3 of `val` (issued together via `Promise.all`, recorded in pin
order), enable low, then a 1 microsecond busy-wait. -/
def write4BitsTrace (val : Nat) : List Ev :=
  [Ev.en 1,
   Ev.dataPin 0 (dataBit val 0), Ev.dataPin 1 (dataBit val 1),
   Ev.dataPin 2 (dataBit val 2), Ev.dataPin 3 (dataBit val 3),
   Ev.en 0, Ev.sleepUs 1]

/-- Event trace of `send(val, mode)` (src/unnamed/part_000 lines 271-275):
register-select written to `mode`, then the high nibble `val >> 4`, then the
low nibble (the source passes `val` itself to the second `write4Bits`; only
bits 0..3 reach the pins). -/
def sendTrace (val mode : Nat) : List Ev :=
  Ev.rs mode :: (write4BitsTrace (val >>> 4) ++ write4BitsTrace val)

/-- Event trace of `command(cmd)` (src/unnamed/part_000 lines 253-260):
a mode-0 send followed by a 39 microsecond busy-wait. -/
def commandTrace (cmd : Nat) : List Ev :=
  sendTrace cmd 0 ++ [Ev.sleepUs 39]

/-- Event trace of `write(val)` (src/unnamed/part_000 lines 262-269):
a mode-1 send followed by a 43 microsecond busy-wait. -/
def writeTrace (val : Nat) : List Ev :=
  sendTrace val 1 ++ [Ev.sleepUs 43]

/-- Whether an event is a write to one of the five pins. -/
def isPinWrite : Ev → Bool
  | Ev.rs _ => true
  | Ev.en _ => true
  | Ev.dataPin _ _ => true
  | _ => false

/-- The subsequence of pin writes of a trace (busy-waits, delays and
reporting events removed). -/
def pinWrites (evs : List Ev) : List Ev := evs.filter isPinWrite

/-- The framing of one nibble as the specification states it: enable driven
high, the four data pins written to bits 0..3 of the nibble, enable driven
low. -/
def nibbleFrame (nib : Nat) : List Ev :=
  [Ev.en 1,
   Ev.dataPin 0 (dataBit nib 0), Ev.dataPin 1 (dataBit nib 1),
   Ev.dataPin 2 (dataBit nib 2), Ev.dataPin 3 (dataBit nib 3),
   Ev.en 0]

lemma dataBit_eq_div_mod (x i : Nat) : dataBit x i = x / 2 ^ i % 2 := by
  simp [dataBit, Nat.and_one_is_mod, Nat.shiftRight_eq_div_pow]

lemma dataBit_eq_testBit (x i : Nat) :
    dataBit x i = if x.testBit i then 1 else 0 := by
  rw [dataBit_eq_div_mod]
  rcases Nat.mod_two_eq_zero_or_one (x / 2 ^ i) with h2 | h2 <;>
    simp [Nat.testBit_to_div_mod, h2]

lemma dataBit_and_fifteen (v i : Nat) (hi : i < 4) :
    dataBit (v &&& 15) i = dataBit v i := by
  have h15 : Nat.testBit 15 i = true := by
    interval_cases i <;> decide
  simp [dataBit_eq_testBit, Nat.testBit_and, h15]

lemma pinWrites_write4Bits (n : Nat) :
    pinWrites (write4BitsTrace n) = nibbleFrame n := by
  rfl

lemma nibbleFrame_and_fifteen (v : Nat) :
    nibbleFrame (v &&& 15) = nibbleFrame v := by
  unfold nibbleFrame
  rw [dataBit_and_fifteen v 0 (by omega), dataBit_and_fifteen v 1 (by omega),
      dataBit_and_fifteen v 2 (by omega), dataBit_and_fifteen v 3 (by omega)]

/-- C1: for every byte value `v` in [0,255] and every mode, `send` first sets
the register-select pin to the mode, then transmits the high nibble `v >> 4`
followed by the low nibble `v &&& 0xF`, each framed as enable high, four data
writes of bits 0..3 of the nibble, enable low, with the first frame complete
before the second begins. -/
theorem send_decomposes_into_framed_nibbles (v mode : Nat) (hv : v ≤ 255) :
    pinWrites (sendTrace v mode) =
      Ev.rs mode :: (nibbleFrame (v >>> 4) ++ nibbleFrame (v &&& 0xF)) := by
  have hsplit : pinWrites (sendTrace v mode) =
      Ev.rs mode ::
        (pinWrites (write4BitsTrace (v >>> 4)) ++ pinWrites (write4BitsTrace v)) := by
    simp [pinWrites, sendTrace, List.filter_append, List.filter_cons, isPinWrite]
  rw [hsplit, pinWrites_write4Bits, pinWrites_write4Bits]
  rw [show (0xF : Nat) = 15 from rfl, nibbleFrame_and_fifteen v]

/-- Witness for C1 at the concrete byte 0xAB in character mode. -/
theorem send_decomposes_into_framed_nibbles_witness :
    (0xAB : Nat) ≤ 255 ∧
      pinWrites (sendTrace 0xAB 1) =
        Ev.rs 1 :: (nibbleFrame (0xAB >>> 4) ++ nibbleFrame (0xAB &&& 0xF)) :=
  ⟨by decide, send_decomposes_into_framed_nibbles 0xAB 1 (by decide)⟩

lemma dataBit_and_255 (v i : Nat) (hi : i < 8) :
    dataBit (v &&& 255) i = dataBit v i := by
  have h255 : Nat.testBit 255 i = true := by interval_cases i <;> decide
  simp [dataBit_eq_testBit, Nat.testBit_and, h255]

lemma dataBit_shiftRight_and_255 (v i : Nat) (hi : i < 4) :
    dataBit ((v &&& 255) >>> 4) i = dataBit (v >>> 4) i := by
  have h255 : Nat.testBit 255 (4 + i) = true := by interval_cases i <;> decide
  simp [dataBit_eq_testBit, Nat.testBit_shiftRight, Nat.testBit_and, h255]

lemma write4BitsTrace_and_255 (v : Nat) :
    write4BitsTrace (v &&& 255) = write4BitsTrace v := by
  unfold write4BitsTrace
  rw [dataBit_and_255 v 0 (by omega), dataBit_and_255 v 1 (by omega),
      dataBit_and_255 v 2 (by omega), dataBit_and_255 v 3 (by omega)]

lemma write4BitsTrace_high_and_255 (v : Nat) :
    write4BitsTrace ((v &&& 255) >>> 4) = write4BitsTrace (v >>> 4) := by
  unfold write4BitsTrace
  rw [dataBit_shiftRight_and_255 v 0 (by omega), dataBit_shiftRight_and_255 v 1 (by omega),
      dataBit_shiftRight_and_255 v 2 (by omega), dataBit_shiftRight_and_255 v 3 (by omega)]

/-- C9: for every non-negative value `v` below 2^31 and every mode, sending
`v` drives exactly the same pin sequence as sending `v &&& 0xFF`: the frame
depends only on the low 8 bits of the value, because each nibble write uses
only bits 0..3 of its argument. -/
theorem send_depends_only_on_low_byte (v mode : Nat) (hv : v < 2 ^ 31) :
    sendTrace v mode = sendTrace (v &&& 0xFF) mode := by
  unfold sendTrace
  rw [show (0xFF : Nat) = 255 from rfl, write4BitsTrace_high_and_255,
      write4BitsTrace_and_255]

/-- Witness for C9 at the concrete value 451 (low byte 195) in command mode. -/
theorem send_depends_only_on_low_byte_witness :
    (451 : Nat) < 2 ^ 31 ∧ sendTrace 451 0 = sendTrace (451 &&& 0xFF) 0 :=
  ⟨by decide, send_depends_only_on_low_byte 451 0 (by decide)⟩

/-- Model of `str.charCodeAt(index)`; a string is modelled as its list of character
codes, and the driver only reads indices below the length. -/
def charCodeAt (str : List Nat) (index : Nat) : Nat := str.getD index 0

/-- The start index computed by `print` (src/unnamed/part_000 lines 122-123):
`displayFills = floor(length / 80)`; start at `(displayFills - 1) * 80` when
`displayFills > 1`, else at 0. -/
def printStartIndex (len : Nat) : Nat :=
  let displayFills := len / 80
  if displayFills > 1 then (displayFills - 1) * 80 else 0

/-- The character codes handed to `write` by the recursive `printChar` loop
(src/unnamed/part_000 lines 135-154) when started at `index`: it stops as
soon as `index >= str.length`, otherwise transmits `charCodeAt(index)` and
recurses at `index + 1`. -/
def printCharCodesFrom (str : List Nat) (index : Nat) : List Nat :=
  if h : index ≥ str.length then []
  else charCodeAt str index :: printCharCodesFrom str (index + 1)
termination_by str.length - index
decreasing_by omega

/-- The character codes transmitted by `print(str)`
(src/unnamed/part_000 lines 113-133). -/
def printTransmitted (str : List Nat) : List Nat :=
  printCharCodesFrom str (printStartIndex str.length)

lemma printCharCodesFrom_eq_drop (str : List Nat) :
    ∀ k index, str.length - index ≤ k →
      printCharCodesFrom str index = str.drop index := by
  intro k
  induction k with
  | zero =>
    intro index h
    have hge : index ≥ str.length := by omega
    rw [printCharCodesFrom]
    simp [hge, List.drop_eq_nil_of_le hge]
  | succ k ih =>
    intro index h
    rw [printCharCodesFrom]
    by_cases hge : index ≥ str.length
    · simp [hge, List.drop_eq_nil_of_le hge]
    · have hlt : index < str.length := by omega
      simp only [hge, dite_false]
      rw [ih (index + 1) (by omega), List.drop_eq_getElem_cons hlt]
      unfold charCodeAt
      rw [List.getD_eq_getElem str 0 hlt]

/-- C2: `print` transmits exactly the suffix of the string from the start
index `(n - 1) * 80` when `n = floor(length / 80) > 1` and from 0 otherwise;
in particular an 802-character string is transmitted from index 720 on, and
the empty string produces no transmission. -/
theorem print_transmits_final_page_suffix :
    (∀ str : List Nat,
        printTransmitted str =
          str.drop (if str.length / 80 > 1 then (str.length / 80 - 1) * 80 else 0))
      ∧ (∀ str : List Nat, str.length = 802 → printTransmitted str = str.drop 720)
      ∧ printTransmitted [] = [] := by
  have hmain : ∀ str : List Nat,
      printTransmitted str =
        str.drop (if str.length / 80 > 1 then (str.length / 80 - 1) * 80 else 0) := by
    intro str
    rw [printTransmitted, printCharCodesFrom_eq_drop str (str.length) _ (by omega)]
    rfl
  refine ⟨hmain, ?_, ?_⟩
  · intro str hlen
    rw [hmain str, hlen]
    norm_num
  · rw [hmain []]
    simp

/-- Witness for C2 on a concrete 802-character string. -/
theorem print_transmits_final_page_suffix_witness :
    printTransmitted (List.replicate 802 65) = (List.replicate 802 65).drop 720 :=
  print_transmits_final_page_suffix.2.1 (List.replicate 802 65)
    (by rw [List.length_replicate])

/-- The fixed DDRAM row-offset table (src/unnamed/part_000 line 6). -/
def rowOffsets : List Nat := [0x00, 0x40, 0x14, 0x54]

/-- The command byte sent by `setCursor(col, row)` on a display configured
with `rows` rows (src/unnamed/part_000 lines 166-172).  The source clamps
with `row > this.rows ? this.rows - 1 : row` (strict comparison) and sends
`0x80 | (col + ROW_OFFSETS[r])`.  When `r` falls outside the 4-entry table,
JavaScript yields `undefined`, `col + undefined` is `NaN`, and
`0x80 | NaN` evaluates to `0x80`; the `none` branch models that. -/
def setCursorCmd (rows col row : Nat) : Nat :=
  let r := if row > rows then rows - 1 else row
  match rowOffsets.get? r with
  | some off => 0x80 ||| (col + off)
  | none => 0x80

/-- C3 counterexample: on a 1-row display, `setCursor(0, 1)` passes an
out-of-range row (`row >= rows`) yet is not clamped to `rows - 1 = 0`: the
source clamps only when `row` strictly exceeds `rows`, so row 1 is used and
the byte sent is `0x80 ||| 0x40 = 0xC0`, not `0x80 ||| (0 + rowOffsets[0])
= 0x80` as the claim requires. -/
theorem setCursor_row_eq_rows_not_clamped :
    setCursorCmd 1 0 1 ≠ 0x80 ||| (0 + rowOffsets.getD 0 0) := by
  decide

/-- C3 amended: the clamp fires only for `row` strictly greater than `rows`.
For every configured `rows` in 1..4 and every `row > rows`, the row index
used is `rows - 1` and the byte sent is `0x80 ||| (col + rowOffsets[rows-1])`
with no error raised; in particular `setCursor(col, 5)` on a 4-row display
sends `0x80 ||| (col + 0x54)`.  A call with `row = rows` is not clamped. -/
theorem setCursor_clamps_strictly_above_rows (rows col row : Nat)
    (h1 : 1 ≤ rows) (h4 : rows ≤ 4) (hlt : rows < row) :
    setCursorCmd rows col row = 0x80 ||| (col + rowOffsets.getD (rows - 1) 0) := by
  interval_cases rows <;> simp [setCursorCmd, rowOffsets, hlt]

/-- Witness for the amended C3: `setCursor(7, 5)` on a 4-row display. -/
theorem setCursor_clamps_strictly_above_rows_witness :
    setCursorCmd 4 7 5 = 0x80 ||| (7 + rowOffsets.getD 3 0) :=
  setCursor_clamps_strictly_above_rows 4 7 5 (by decide) (by decide) (by decide)

/-- JavaScript `x & ~m` on the 8-bit register values used here: `~m` is the
32-bit complement of `m`, so for register values below 2^32 the operation is
`x &&& (0xFFFFFFFF ^^^ m)`. -/
def jsNot (m : Nat) : Nat := 0xFFFFFFFF ^^^ m

/-- The two persistent bitmask registers of the driver. -/
structure DriverState where
  displayControl : Nat
  displayMode : Nat
deriving DecidableEq

/-- Register values set by the constructor (src/unnamed/part_000 lines
74-75): display on, cursor off, blink off; left to right, no shift. -/
def initialState : DriverState :=
  { displayControl := 0x0c, displayMode := 0x06 }

/-- Transition of `display()`: new state and the byte passed to `command`
(src/unnamed/part_000 lines 174-177). -/
def displayOp (s : DriverState) : DriverState × Nat :=
  let d := s.displayControl ||| 0x04
  ({ s with displayControl := d }, d)

/-- Transition of `noDisplay()` (src/unnamed/part_000 lines 179-182). -/
def noDisplayOp (s : DriverState) : DriverState × Nat :=
  let d := s.displayControl &&& jsNot 0x04
  ({ s with displayControl := d }, d)

/-- Transition of `cursor()` (src/unnamed/part_000 lines 184-187). -/
def cursorOp (s : DriverState) : DriverState × Nat :=
  let d := s.displayControl ||| 0x02
  ({ s with displayControl := d }, d)

/-- Transition of `noCursor()` (src/unnamed/part_000 lines 189-192). -/
def noCursorOp (s : DriverState) : DriverState × Nat :=
  let d := s.displayControl &&& jsNot 0x02
  ({ s with displayControl := d }, d)

/-- Transition of `blink()` (src/unnamed/part_000 lines 194-197). -/
def blinkOp (s : DriverState) : DriverState × Nat :=
  let d := s.displayControl ||| 0x01
  ({ s with displayControl := d }, d)

/-- Transition of `noBlink()` (src/unnamed/part_000 lines 199-202). -/
def noBlinkOp (s : DriverState) : DriverState × Nat :=
  let d := s.displayControl &&& jsNot 0x01
  ({ s with displayControl := d }, d)

/-- Transition of `leftToRight()` (src/unnamed/part_000 lines 212-215). -/
def leftToRightOp (s : DriverState) : DriverState × Nat :=
  let d := s.displayMode ||| 0x02
  ({ s with displayMode := d }, d)

/-- Transition of `rightToLeft()` (src/unnamed/part_000 lines 217-220). -/
def rightToLeftOp (s : DriverState) : DriverState × Nat :=
  let d := s.displayMode &&& jsNot 0x02
  ({ s with displayMode := d }, d)

/-- Transition of `autoscroll()` (src/unnamed/part_000 lines 222-225). -/
def autoscrollOp (s : DriverState) : DriverState × Nat :=
  let d := s.displayMode ||| 0x01
  ({ s with displayMode := d }, d)

/-- Transition of `noAutoscroll()` (src/unnamed/part_000 lines 227-230). -/
def noAutoscrollOp (s : DriverState) : DriverState × Nat :=
  let d := s.displayMode &&& jsNot 0x01
  ({ s with displayMode := d }, d)

/-- C5: the Display Control register starts at 0x0c; after
`display(); noDisplay(); cursor()` it equals
`((0x0c | 0x04) & ~0x04) | 0x02` applied left to right, the byte then on the
wire equals the register, and every toggle operation transmits exactly the
in-memory register value it just stored. -/
theorem displayControl_sequence_and_full_retransmission :
    initialState.displayControl = 0x0c
      ∧ (cursorOp (noDisplayOp (displayOp initialState).1).1).1.displayControl
          = ((0x0c ||| 0x04) &&& jsNot 0x04) ||| 0x02
      ∧ (cursorOp (noDisplayOp (displayOp initialState).1).1).2
          = (cursorOp (noDisplayOp (displayOp initialState).1).1).1.displayControl
      ∧ (∀ s, (displayOp s).2 = (displayOp s).1.displayControl)
      ∧ (∀ s, (noDisplayOp s).2 = (noDisplayOp s).1.displayControl)
      ∧ (∀ s, (cursorOp s).2 = (cursorOp s).1.displayControl)
      ∧ (∀ s, (noCursorOp s).2 = (noCursorOp s).1.displayControl)
      ∧ (∀ s, (blinkOp s).2 = (blinkOp s).1.displayControl)
      ∧ (∀ s, (noBlinkOp s).2 = (noBlinkOp s).1.displayControl)
      ∧ (∀ s, (leftToRightOp s).2 = (leftToRightOp s).1.displayMode)
      ∧ (∀ s, (rightToLeftOp s).2 = (rightToLeftOp s).1.displayMode)
      ∧ (∀ s, (autoscrollOp s).2 = (autoscrollOp s).1.displayMode)
      ∧ (∀ s, (noAutoscrollOp s).2 = (noAutoscrollOp s).1.displayMode) :=
  ⟨rfl, by decide, rfl, fun s => rfl, fun s => rfl, fun s => rfl, fun s => rfl,
   fun s => rfl, fun s => rfl, fun s => rfl, fun s => rfl, fun s => rfl,
   fun s => rfl⟩

/-- The function-set byte computed by `init` (src/unnamed/part_000 lines
93-102): base 0x20, OR 0x08 when `rows > 1`, OR 0x04 when `rows === 1` and
the large-font flag is set. -/
def displayFunctionByte (rows : Nat) (largeFont : Bool) : Nat :=
  let df := 0x20
  let df := if rows > 1 then df ||| 0x08 else df
  let df := if rows == 1 && largeFont then df ||| 0x04 else df
  df

/-- The bytes passed to `command` by `init`, in order, after the three 0x03
wake-up nibbles and the 0x02 switch to 4-bit mode (src/unnamed/part_000
lines 103-109). -/
def initCommandBytes (rows : Nat) (largeFont : Bool)
    (displayControl displayMode : Nat) : List Nat :=
  [displayFunctionByte rows largeFont, 0x10, displayControl, displayMode, 0x01]

/-- C6: `init` computes the function-set byte as 0x20 with the 2-line bit
(0x08) set exactly when `rows > 1` and the large-font bit (0x04) set exactly
when `rows = 1` and large font is requested, sends it as a command, then
sends in order 0x10, the Display Control register, the Display Mode
register, and the clear-display command 0x01. -/
theorem init_function_set_and_command_order (rows : Nat) (largeFont : Bool)
    (dc dm : Nat) :
    initCommandBytes rows largeFont dc dm
        = [displayFunctionByte rows largeFont, 0x10, dc, dm, 0x01]
      ∧ (displayFunctionByte rows largeFont).testBit 3 = decide (rows > 1)
      ∧ (displayFunctionByte rows largeFont).testBit 2
          = (rows == 1 && largeFont)
      ∧ displayFunctionByte rows largeFont &&& 0xF3 = 0x20 := by
  refine ⟨rfl, ?_, ?_, ?_⟩ <;>
  · rcases Nat.lt_or_ge 1 rows with h | h
    · have hne : (rows == 1) = false := by
        simp only [beq_eq_false_iff_ne, ne_eq]
        omega
      simp [displayFunctionByte, h, hne] <;> decide
    · interval_cases rows <;> cases largeFont <;> simp [displayFunctionByte] <;> decide

/-- Event trace of `write4Bits(val)` in src/lcd-ts.ts lines 306-318 (defined
separately because C8 compares the two files). -/
def tsWrite4BitsTrace (val : Nat) : List Ev :=
  [Ev.en 1,
   Ev.dataPin 0 (dataBit val 0), Ev.dataPin 1 (dataBit val 1),
   Ev.dataPin 2 (dataBit val 2), Ev.dataPin 3 (dataBit val 3),
   Ev.en 0, Ev.sleepUs 1]

/-- Event trace of `send(val, mode)` in src/lcd-ts.ts lines 300-304. -/
def tsSendTrace (val mode : Nat) : List Ev :=
  Ev.rs mode :: (tsWrite4BitsTrace (val >>> 4) ++ tsWrite4BitsTrace val)

/-- Event trace of `command(cmd)` in src/lcd-ts.ts lines 282-289. -/
def tsCommandTrace (cmd : Nat) : List Ev :=
  tsSendTrace cmd 0 ++ [Ev.sleepUs 39]

/-- Whether an event is hardware-facing: a pin write, a busy-wait or a
millisecond delay (reporting events excluded). -/
def hwEvent : Ev → Bool
  | Ev.rs _ => true
  | Ev.en _ => true
  | Ev.dataPin _ _ => true
  | Ev.sleepUs _ => true
  | Ev.delayMs _ => true
  | _ => false

/-- The hardware-facing subsequence of a trace. -/
def hwEvents (evs : List Ev) : List Ev := evs.filter hwEvent

/-- The caller notifications of a trace. -/
def noteEvents (evs : List Ev) : List Ev :=
  evs.filter fun e => match e with
    | Ev.note _ => true
    | _ => false

/-- Event trace of `commandAndDelay(command, timeout)` in
src/unnamed/part_000 lines 238-251.  `cmdFails` says whether the underlying
command's pin write throws, and `preEvs` is the hardware trace the failing
command emitted before throwing.  On success: command, `delay(timeout)`,
promise resolution, lock release.  On failure: the partial command trace,
promise rejection, lock release (no delay, no further report). -/
def p0CommandAndDelayTrace (command timeout : Nat) (cmdFails : Bool)
    (preEvs : List Ev) : List Ev :=
  if cmdFails then preEvs ++ [Ev.rejectP, Ev.release]
  else commandTrace command ++ [Ev.delayMs timeout, Ev.resolveP, Ev.release]

/-- Event trace of `commandAndDelay(command, timeout, event, cb)` in
src/lcd-ts.ts lines 247-268.  The source tests `if (this.tryCommand(...))`
WITHOUT awaiting it: the test sees the Promise object, which is always
truthy, so the delay and the success notification run on the failure path
too (after `tryCommand` has already reported the error).  The command's
asynchronous pin writes are sequentialized before the millisecond delay
that follows them. -/
def tsCommandAndDelayTrace (command timeout : Nat) (event : String)
    (cmdFails : Bool) (preEvs : List Ev) : List Ev :=
  if cmdFails then
    preEvs ++ [Ev.note "error", Ev.delayMs timeout, Ev.note event,
               Ev.release, Ev.resolveP]
  else
    tsCommandTrace command ++ [Ev.delayMs timeout, Ev.note event,
                               Ev.release, Ev.resolveP]

/-- C4 (code bug): a `clear()` whose underlying command fails reports twice
in src/lcd-ts.ts: `tryCommand` emits the error notification, then the
unawaited-Promise truthiness bug lets the success path run, emitting the
`clear` notification as well; both precede the lock release. -/
theorem failing_command_reports_error_then_success :
    tsCommandAndDelayTrace 0x01 3 "clear" true []
        = [Ev.note "error", Ev.delayMs 3, Ev.note "clear",
           Ev.release, Ev.resolveP]
      ∧ noteEvents (tsCommandAndDelayTrace 0x01 3 "clear" true [])
        = [Ev.note "error", Ev.note "clear"] := by
  constructor <;> rfl

/-- C8 counterexample: with a failing `clear()` command (pin write throwing
before any event), the hardware-facing traces of the two files differ: the
notification-adapter file still performs the 3 ms post-command delay, the
plain-promise file does not. -/
theorem failing_clear_traces_differ :
    hwEvents (tsCommandAndDelayTrace 0x01 3 "clear" true [])
      ≠ hwEvents (p0CommandAndDelayTrace 0x01 3 true []) := by
  decide

/-- C8 amended: the two files share the transmission core — `send` produces
identical traces, and `commandAndDelay` produces identical hardware-facing
traces for succeeding commands — but on a failing command the
notification-adapter file additionally performs the post-command delay, so
the two files are not trace-equal modulo reporting. -/
theorem driver_cores_agree_except_failing_delay :
    (∀ v mode, tsSendTrace v mode = sendTrace v mode)
      ∧ (∀ c t ev, hwEvents (tsCommandAndDelayTrace c t ev false [])
          = hwEvents (p0CommandAndDelayTrace c t false []))
      ∧ (∀ c t ev p, hwEvents (tsCommandAndDelayTrace c t ev true p)
          = hwEvents (p0CommandAndDelayTrace c t true p) ++ [Ev.delayMs t]) := by
  refine ⟨fun v mode => rfl, fun c t ev => rfl, fun c t ev p => ?_⟩
  simp [tsCommandAndDelayTrace, p0CommandAndDelayTrace, hwEvents,
        List.filter_append, hwEvent]

/-- A JavaScript value as seen by the dynamic `typeof` check in
`write4Bits`: either a number, or any non-number value (collapsed into one
constructor, since the guard only inspects `typeof`). -/
inductive JsVal where
  | num (n : Nat)
  | other
deriving DecidableEq

/-- Model of `write4Bits(val)` with its guard (src/unnamed/part_000 lines 277-289):
a non-number argument throws `Value passed to .write4Bits must be a number`;
a number produces the nibble trace. -/
def write4BitsChecked (val : JsVal) : Except String (List Ev) :=
  match val with
  | JsVal.num n => Except.ok (write4BitsTrace n)
  | JsVal.other => Except.error "Value passed to .write4Bits must be a number"

/-- JavaScript `val >> 4`: `>>` first coerces its operand to a 32-bit
integer, so a non-number value becomes `NaN` and then 0 — always a number. -/
def jsShr4 : JsVal → JsVal
  | JsVal.num n => JsVal.num (n >>> 4)
  | JsVal.other => JsVal.num 0

/-- Model of `send(val, mode)` through the guarded nibble writes
(src/unnamed/part_000 lines 271-275). -/
def sendChecked (val : JsVal) (mode : Nat) : Except String (List Ev) := do
  let hi ← write4BitsChecked (jsShr4 val)
  let lo ← write4BitsChecked val
  return Ev.rs mode :: (hi ++ lo)

/-- Model of `write(val)` through the guarded path (src/unnamed/part_000 lines
262-269). -/
def writeChecked (val : JsVal) : Except String (List Ev) := do
  let t ← sendChecked val 1
  return t ++ [Ev.sleepUs 43]

/-- The recursive `printChar` loop through the guarded path
(src/unnamed/part_000 lines 135-154): each transmitted value is
`str.charCodeAt(index)`, wrapped as the number it always is. -/
def printCharChecked (str : List Nat) (index : Nat) : Except String (List Ev) :=
  if h : index ≥ str.length then Except.ok []
  else do
    let evs ← writeChecked (JsVal.num (charCodeAt str index))
    let rest ← printCharChecked str (index + 1)
    return evs ++ rest
termination_by str.length - index
decreasing_by omega

/-- Model of `print(val)` through the guarded path (src/unnamed/part_000 lines
113-133): the argument is coerced to a string and only character codes are
transmitted. -/
def printRunChecked (str : List Nat) : Except String (List Ev) :=
  printCharChecked str (printStartIndex str.length)

lemma writeChecked_num_ok (n : Nat) :
    writeChecked (JsVal.num n) =
      Except.ok (sendTrace n 1 ++ [Ev.sleepUs 43]) := rfl

lemma printCharChecked_ok (str : List Nat) :
    ∀ k index, str.length - index ≤ k →
      (printCharChecked str index).isOk = true := by
  intro k
  induction k with
  | zero =>
    intro index h
    have hge : index ≥ str.length := by omega
    rw [printCharChecked]
    simp [hge, Except.isOk, Except.toBool]
  | succ k ih =>
    intro index h
    rw [printCharChecked]
    by_cases hge : index ≥ str.length
    · simp [hge, Except.isOk, Except.toBool]
    · simp only [hge, dite_false, writeChecked_num_ok]
      have hrec := ih (index + 1) (by omega)
      rcases hok : printCharChecked str (index + 1) with evs | err
      · rw [hok] at hrec
        simp [Except.isOk, Except.toBool] at hrec
      · simp [hok, bind, Except.bind, pure, Except.pure, Except.isOk, Except.toBool]

/-- C10: the non-number guard of `write4Bits` never fires on the print path:
for every string, the guarded run of `print` succeeds — the error
`Value passed to .write4Bits must be a number` is unreachable from `print`,
since `charCodeAt` always yields a number. -/
theorem print_never_trips_write4Bits_guard (str : List Nat) :
    (printRunChecked str).isOk = true :=
  printCharChecked_ok str str.length (printStartIndex str.length) (by omega)
